import Mathlib

/-!
Verification of the KY Highway Plan Projects dashboard core
(filter state machine and client-side aggregation layer of `js/download.js`)
against its natural-language specification.

The JavaScript source is embedded shallowly:

* the three global filter variables (`currentDistrictFilter`,
  `currentCountyFilter`, `currentProjectTypeFilter`) become an explicit
  `FilterState` record of `Option String` fields (JavaScript truthiness of a
  string — falsy exactly on the empty string — is modelled explicitly);
* the SQLite snapshot becomes a `Database` record: the base
  `Basic_Project_Info` table and the `crosswalk` table are lists of records,
  and each optional pre-aggregated view is an `Option` (a `none` view models
  the "view absent, query throws" path of the source's try/catch blocks);
* every SQL `SELECT` of the aggregation layer is translated to a pure list
  computation (filter / group-by / order-by / limit), and the JavaScript
  post-processing that builds a `yearData` object is modelled by a
  sorted association list with last-write-wins insert, mirroring the
  ascending-integer-key iteration order of JavaScript objects;
* DOM, Leaflet, Chart.js and Tabulator side effects are projected away;
  what each load function does to the data shown (counts pair, year series,
  table rows) is kept, including the branches that leave previous data
  in place.
-/

namespace KYHighway

/-! ### JavaScript string helpers (ASCII case mapping, `includes`) -/

/-- ASCII-range uppercasing of a character, as `String.prototype.toUpperCase`
acts on the ASCII letters appearing in county names. -/
def jsUpperChar (c : Char) : Char :=
  if 'a' ≤ c ∧ c ≤ 'z' then Char.ofNat (c.toNat - 32) else c

/-- ASCII-range lowercasing of a character. -/
def jsLowerChar (c : Char) : Char :=
  if 'A' ≤ c ∧ c ≤ 'Z' then Char.ofNat (c.toNat + 32) else c

/-- `s.toUpperCase()`. -/
def jsToUpper (s : String) : String := String.mk (s.data.map jsUpperChar)

/-- `s.toLowerCase()`. -/
def jsToLower (s : String) : String := String.mk (s.data.map jsLowerChar)

/-- `s.charAt(0).toUpperCase() + s.slice(1).toLowerCase()` — the title-cased
variant tried by `zoomToCounty`. -/
def jsTitleCase (s : String) : String :=
  match s.data with
  | [] => ""
  | c :: rest => String.mk (jsUpperChar c :: rest.map jsLowerChar)

/-- Whether `needle` occurs at the head of `hay` (character lists). -/
def charsLeadEq : List Char → List Char → Bool
  | [], _ => true
  | _ :: _, [] => false
  | n :: ns, h :: hs => n == h && charsLeadEq ns hs

/-- Whether `needle` occurs contiguously anywhere in `hay` (character lists). -/
def charsContain (needle : List Char) : List Char → Bool
  | [] => needle.isEmpty
  | h :: t => charsLeadEq needle (h :: t) || charsContain needle t

/-- `hay.includes(needle)` on strings. -/
def strIncludes (hay needle : String) : Bool := charsContain needle.data hay.data

/-- `districtNumber.toString().padStart(2, '0')`. -/
def padStartTwoZero (s : String) : String :=
  if 2 ≤ s.length then s else String.mk (List.replicate (2 - s.length) '0' ++ s.data)

/-- The `District NN` string the district queries compare against,
from `loadFilteredProjectsAwardedData` and friends. -/
def formatDistrict (districtNumber : String) : String :=
  "District " ++ padStartTwoZero districtNumber

/-! ### Sorting by an integer key (models SQL `ORDER BY`) -/

/-- Insert `x` into `l` in front of the first element of key not below
`key x`; auxiliary to `sortBy`. -/
def insertSortedBy (key : α → Int) (x : α) : List α → List α
  | [] => [x]
  | y :: ys => if key x ≤ key y then x :: y :: ys else y :: insertSortedBy key x ys

/-- Insertion sort on an integer key, the model of `ORDER BY`. -/
def sortBy (key : α → Int) (l : List α) : List α := l.foldr (insertSortedBy key) []

/-- Ascending (non-strict) sortedness with respect to an integer key. -/
abbrev SortedBy (key : α → Int) (l : List α) : Prop :=
  l.Pairwise (fun a b => key a ≤ key b)

theorem mem_insertSortedBy {key : α → Int} {x b : α} {l : List α} :
    b ∈ insertSortedBy key x l ↔ b = x ∨ b ∈ l := by
  induction l with
  | nil => simp [insertSortedBy]
  | cons y ys ih =>
    by_cases hxy : key x ≤ key y
    · simp [insertSortedBy, hxy]
    · simp only [insertSortedBy, if_neg hxy, List.mem_cons, ih]
      tauto

theorem sortedBy_insertSortedBy {key : α → Int} {x : α} {l : List α}
    (h : SortedBy key l) : SortedBy key (insertSortedBy key x l) := by
  induction l with
  | nil => simp [insertSortedBy, SortedBy]
  | cons y ys ih =>
    rcases (List.pairwise_cons.mp h) with ⟨hy, hys⟩
    by_cases hxy : key x ≤ key y
    · have hrw : insertSortedBy key x (y :: ys) = x :: y :: ys := by
        simp [insertSortedBy, hxy]
      rw [hrw]
      refine List.pairwise_cons.mpr ⟨?_, h⟩
      intro b hb
      rcases List.mem_cons.mp hb with rfl | hb
      · exact hxy
      · exact le_trans hxy (hy b hb)
    · have hrw : insertSortedBy key x (y :: ys) = y :: insertSortedBy key x ys := by
        simp [insertSortedBy, hxy]
      rw [hrw]
      refine List.pairwise_cons.mpr ⟨?_, ih hys⟩
      intro b hb
      rcases mem_insertSortedBy.mp hb with rfl | hb
      · exact le_of_lt (lt_of_not_le hxy)
      · exact hy b hb

theorem sortedBy_sortBy (key : α → Int) (l : List α) : SortedBy key (sortBy key l) := by
  induction l with
  | nil => exact List.Pairwise.nil
  | cons y ys ih => exact sortedBy_insertSortedBy ih

theorem sortBy_eq_of_sortedBy {key : α → Int} {l : List α}
    (h : SortedBy key l) : sortBy key l = l := by
  induction l with
  | nil => rfl
  | cons y ys ih =>
    rcases (List.pairwise_cons.mp h) with ⟨hy, hys⟩
    have htl : sortBy key ys = ys := ih hys
    show insertSortedBy key y (sortBy key ys) = y :: ys
    rw [htl]
    cases ys with
    | nil => rfl
    | cons z zs => simp [insertSortedBy, hy z (List.mem_cons_self z zs)]

/-! ### Data model: the SQLite snapshot -/

/-- One row of the `Basic_Project_Info` table/view: the columns the core
queries touch (`DISTRICT`, `COUNTY`, `TYPE_WORK`, `RSY_YEAR`, `AWARDED`).
`rsyYear = none` models SQL `NULL`; `awarded = none` models `NULL` and
`awarded = some ""` the empty string, the two "not awarded" shapes the
queries distinguish from a set flag. -/
structure ProjectRow where
  district : String
  county : String
  typeWork : String
  rsyYear : Option Int
  awarded : Option String
  deriving DecidableEq

/-- One row of the `crosswalk` table mapping a raw work-type code to a
standardized category and a display name. -/
structure CrosswalkEntry where
  raw_project_type : String
  dropdown_category : String
  dropdown_display_name : String
  deriving DecidableEq

/-- One row of a `ProjectsAwarded*` pre-aggregated view: a key column
(`DISTRICT` or `COUNTY`; unused for the unfiltered view) and the two
aggregate count columns `Awarded` and `Current`. -/
structure AwardedViewRow where
  key : String
  awarded : Nat
  current : Nat
  deriving DecidableEq

/-- One row of a `ProjectYears_By*` pre-aggregated view: key column,
`RSY_YEAR`, and the `total_projects` count. -/
structure YearViewRow where
  key : String
  year : Int
  total_projects : Nat
  deriving DecidableEq

/-- The loaded relational snapshot. The base table and crosswalk are always
present; each pre-aggregated view is `none` when absent from the snapshot,
in which case the corresponding `database.prepare` call throws and the
source's `catch` branch runs. -/
structure Database where
  basicProjectInfo : List ProjectRow
  crosswalk : List CrosswalkEntry
  projectsAwardedView : Option (List AwardedViewRow)
  projectsAwardedByDistrictView : Option (List AwardedViewRow)
  projectsAwardedByCountyView : Option (List AwardedViewRow)
  projectCountYearView : Option (List (Int × Nat))
  projectYearsByDistrictView : Option (List YearViewRow)
  projectYearsByCountyView : Option (List YearViewRow)
  deriving DecidableEq

/-- The `projectCounts` global: awarded and current project counts backing
the pie chart. -/
structure ProjectCounts where
  awarded : Nat
  current : Nat
  deriving DecidableEq

/-! ### Filter state and transitions -/

/-- The three global filter variables of `download.js`
(`currentDistrictFilter`, `currentCountyFilter`,
`currentProjectTypeFilter`), each `null` (`none`) when inactive. -/
structure FilterState where
  currentDistrictFilter : Option String
  currentCountyFilter : Option String
  currentProjectTypeFilter : Option String
  deriving DecidableEq

/-- The initial state: no filter active. -/
def initialFilterState : FilterState := ⟨none, none, none⟩

/-- JavaScript truthiness of an optional string filter variable:
active exactly when non-null and non-empty. -/
def activeVal : Option String → Option String
  | some s => if s = "" then none else some s
  | none => none

/-- State effect of `applyDistrictFilter`: sets `currentDistrictFilter`,
leaves the other two filter variables untouched. -/
def applyDistrictFilter (st : FilterState) (districtNumber : String) : FilterState :=
  { st with currentDistrictFilter := some districtNumber }

/-- State effect of `applyCountyFilter`: sets `currentCountyFilter`,
leaves the other two filter variables untouched. -/
def applyCountyFilter (st : FilterState) (countyName : String) : FilterState :=
  { st with currentCountyFilter := some countyName }

/-- State effect of `applyProjectTypeFilter`: sets
`currentProjectTypeFilter`, leaves the other two filter variables
untouched. -/
def applyProjectTypeFilter (st : FilterState) (projectType : String) : FilterState :=
  { st with currentProjectTypeFilter := some projectType }

/-- State effect of `clearAllFilters`: resets all three filter variables. -/
def clearAllFilters (_st : FilterState) : FilterState := ⟨none, none, none⟩

/-! ### Derived titles (`updatePanelTitles`, `getProjectTypeDisplayName`) -/

/-- `getProjectTypeDisplayName`: resolves a category to its display name
through the crosswalk (`SELECT DISTINCT dropdown_display_name FROM crosswalk
WHERE dropdown_category = ? LIMIT 1`), falling back to the category itself
when the database is not loaded, the category is falsy, no row matches, or
the stored display name is falsy. -/
def getProjectTypeDisplayName (db : Option Database) (category : String) : String :=
  match db with
  | none => category
  | some db =>
    if category = "" then category
    else
      match (db.crosswalk.filter (fun c => c.dropdown_category == category)).head? with
      | some c => if c.dropdown_display_name = "" then category else c.dropdown_display_name
      | none => category

/-- The shared district/county title suffix built by `updatePanelTitles`
(the `if (currentDistrictFilter) ... if (currentCountyFilter) ...` chain;
a falsy — empty — filter value contributes nothing). -/
def districtCountyTitleSuffix (st : FilterState) : String :=
  (match st.currentDistrictFilter with
   | some d => if d = "" then "" else " in District " ++ d
   | none => "") ++
  (match st.currentCountyFilter with
   | some c => if c = "" then "" else " in " ++ c ++ " County"
   | none => "")

/-- The Projects panel title set by `updatePanelTitles` (district and county
suffixes only). -/
def projectsPanelTitle (st : FilterState) : String :=
  "Projects" ++ districtCountyTitleSuffix st

/-- The data table title set by `updatePanelTitles` (district and county
suffixes, then the project-type display name in parentheses). -/
def tableDataTitle (db : Option Database) (st : FilterState) : String :=
  "Highway Projects Data" ++ districtCountyTitleSuffix st ++
  (match st.currentProjectTypeFilter with
   | some pt => if pt = "" then "" else " (" ++ getProjectTypeDisplayName db pt ++ ")"
   | none => "")

/-! ### Spatial layer index lookup (`zoomToCounty`) -/

/-- JavaScript object property lookup `countyLayers[k]` over the stored
layer keys, returning the stored key that was hit. Keys of a JavaScript
object are unique, so the first hit is the only one. -/
def layerLookup (keys : List String) (k : String) : Option String :=
  keys.find? (fun key => key == k)

/-- The substring fallback tier of `zoomToCounty`: stored keys whose
lowercased form contains, or is contained in, the lowercased lookup key,
in stored order. -/
def substringMatches (keys : List String) (countyName : String) : List String :=
  keys.filter (fun key =>
    strIncludes (jsToLower key) (jsToLower countyName) ||
    strIncludes (jsToLower countyName) (jsToLower key))

/-- `zoomToCounty` as a lookup: the stored key whose feature group the map
pans to, or `none` when no tier matches (in which case the source only
logs a warning and no pan occurs). Tier order: exact key, uppercased,
lowercased, title-cased, then the first substring match. -/
def zoomToCounty (keys : List String) (countyName : String) : Option String :=
  let exactMatch := layerLookup keys countyName
  let upperMatch := layerLookup keys (jsToUpper countyName)
  let lowerMatch := layerLookup keys (jsToLower countyName)
  let titleMatch := layerLookup keys (jsTitleCase countyName)
  match ((exactMatch.orElse fun _ => upperMatch).orElse fun _ => lowerMatch).orElse
      fun _ => titleMatch with
  | some k => some k
  | none => (substringMatches keys countyName).head?

/-! ### District option loading (`loadDistrictOptions`) -/

/-- `parseInt` on a list of decimal digit characters. -/
def digitsToNat (ds : List Char) : Nat :=
  ds.foldl (fun n c => 10 * n + (c.toNat - 48)) 0

/-- The `districtValue.toString().match(/(\d+)/)` step: the first contiguous
run of digits in the string, parsed, or `none` when the string has no
digit. -/
def extractFirstNumber (s : String) : Option Nat :=
  let ds := (s.data.dropWhile (fun c => !c.isDigit)).takeWhile Char.isDigit
  if ds.isEmpty then none else some (digitsToNat ds)

/-- The option list built by `loadDistrictOptions` from the district names
of the `KYTC_Districts` table: first number extracted from each name, kept
only when in range 1–12, then deduplicated and sorted numerically
(`[...new Set(districts)].sort((a, b) => a - b)`). -/
def districtOptionsFromNames (names : List String) : List Nat :=
  let districts := names.filterMap (fun nm =>
    (extractFirstNumber nm).bind (fun k =>
      if 1 ≤ k ∧ k ≤ 12 then some k else none))
  sortBy (fun n => (n : Int)) districts.dedup

/-! ### Query layer: awarded-vs-current counts -/

/-- The `AWARDED IS NOT NULL AND AWARDED != ''` test of the county fallback
query (SQL truthiness of the awarded flag). -/
def isAwardedSet : Option String → Bool
  | none => false
  | some s => !(s == "")

/-- Awarded/current counts over the rows of `base` selected by `pred`,
split on the awarded flag — the shape of the county fallback query
(`COUNT(CASE WHEN AWARDED IS NOT NULL AND AWARDED != '' THEN 1 END)` /
`COUNT(CASE WHEN AWARDED IS NULL OR AWARDED = '' THEN 1 END)`). -/
def awardedCurrentCounts (base : List ProjectRow) (pred : ProjectRow → Bool) : ProjectCounts :=
  { awarded := (base.filter (fun r => pred r && isAwardedSet r.awarded)).length
    current := (base.filter (fun r => pred r && !isAwardedSet r.awarded)).length }

/-- The `LEFT JOIN crosswalk c ON b.TYPE_WORK = c.raw_project_type WHERE
c.dropdown_category = ?` join of the project-type queries: every surviving
row pairs a base row with a crosswalk row of the selected category
(null-extended rows are dropped by the `WHERE`, since `NULL` compares
unequal). -/
def projectTypeJoin (db : Database) (projectType : String) : List (ProjectRow × CrosswalkEntry) :=
  db.basicProjectInfo.flatMap (fun b =>
    ((db.crosswalk.filter (fun c => c.raw_project_type == b.typeWork)).filter
      (fun c => c.dropdown_category == projectType)).map (fun c => (b, c)))

/-- `loadProjectsAwardedData`: first row of the `ProjectsAwarded` view when
present (no update when the view is empty); when the view is absent the
fallback counts every base row as current (`projectCounts.awarded = 0`,
`projectCounts.current = COUNT(*)`). -/
def loadProjectsAwardedDataStep (db : Database) (pc : ProjectCounts) : ProjectCounts :=
  match db.projectsAwardedView with
  | some rows =>
    match rows.head? with
    | some r => { awarded := r.awarded, current := r.current }
    | none => pc
  | none => { awarded := 0, current := db.basicProjectInfo.length }

/-- `loadFilteredProjectsAwardedData` (by district): first row of the
`ProjectsAwarded_ByDistrict` view matching the formatted district string,
`{0, 0}` when no row matches; when the view is absent the catch branch only
logs, leaving the previous counts — there is no fallback query. -/
def loadFilteredProjectsAwardedDataStep (db : Database) (pc : ProjectCounts)
    (districtNumber : String) : ProjectCounts :=
  match db.projectsAwardedByDistrictView with
  | some rows =>
    match rows.find? (fun r => r.key == formatDistrict districtNumber) with
    | some r => { awarded := r.awarded, current := r.current }
    | none => { awarded := 0, current := 0 }
  | none => pc

/-- `loadFilteredProjectsAwardedDataByCounty`: first row of the
`ProjectsAwarded_ByCounty` view matching the county, `{0, 0}` when no row
matches; when the view is absent, falls back to the awarded-flag
aggregation over `Basic_Project_Info`. -/
def loadFilteredProjectsAwardedDataByCountyStep (db : Database)
    (countyName : String) : ProjectCounts :=
  match db.projectsAwardedByCountyView with
  | some rows =>
    match rows.find? (fun r => r.key == countyName) with
    | some r => { awarded := r.awarded, current := r.current }
    | none => { awarded := 0, current := 0 }
  | none => awardedCurrentCounts db.basicProjectInfo (fun r => r.county == countyName)

/-- `loadFilteredProjectsAwardedDataByProjectType`: single query over the
base table joined to the crosswalk; the `CASE WHEN c.dropdown_category = ?
THEN 'Awarded' ELSE 'Current'` status is computed after a `WHERE
c.dropdown_category = ?` that already restricts to the selected category,
so the `'Current'` branch never fires. -/
def loadFilteredProjectsAwardedDataByProjectTypeStep (db : Database)
    (projectType : String) : ProjectCounts :=
  let joined := projectTypeJoin db projectType
  { awarded := (joined.filter (fun bc => bc.2.dropdown_category == projectType)).length
    current := (joined.filter (fun bc => !(bc.2.dropdown_category == projectType))).length }

/-! ### Query layer: year series -/

/-- The `GROUP BY RSY_YEAR ORDER BY RSY_YEAR` aggregation over a list of
(non-null) year values: distinct years ascending, each with its row
count. -/
def groupYearCounts (years : List Int) : List (Int × Nat) :=
  (sortBy id years.dedup).map (fun y => (y, years.count y))

/-- The chart's year map: a sorted association list with unique integer
keys, modelling the ascending-integer-key iteration order of the
JavaScript `yearData` object. -/
def setYear : List (Int × Nat) → Int → Nat → List (Int × Nat)
  | [], y, c => [(y, c)]
  | (k, v) :: rest, y, c =>
    if y < k then (y, c) :: (k, v) :: rest
    else if y = k then (y, c) :: rest
    else (k, v) :: setYear rest y c

/-- `yearData[y] || 0`: lookup of an integer key in the year map (the
map's keys are unique, so the first match is the only match). -/
def getYear : List (Int × Nat) → Int → Nat
  | [], _ => 0
  | (k, v) :: rest, y => if k = y then v else getYear rest y

/-- The `rows.forEach` loop building the `yearData` object: a row
contributes only when its year and count are both truthy (`if (year &&
count !== undefined)`, where a zero count has already fallen through the
`||` chain to `undefined`). -/
def buildYearData (rows : List (Int × Nat)) : List (Int × Nat) :=
  rows.foldl (fun m p => if p.1 ≠ 0 ∧ p.2 ≠ 0 then setYear m p.1 p.2 else m) []

/-- `loadProjectCountByYear`: the `ProjectCount_Year` view ordered by year
when present (chart untouched when the view or the built map is empty);
when the view is absent, the fallback scans `RSY_YEAR >= 2024` rows of the
base table and counts them into the year map directly. -/
def loadProjectCountByYearStep (db : Database) (yd : List (Int × Nat)) : List (Int × Nat) :=
  match db.projectCountYearView with
  | some vr =>
    let rows := sortBy (fun p => p.1) vr
    if rows.isEmpty then yd
    else
      let d := buildYearData rows
      if d.isEmpty then yd else d
  | none =>
    let years := (db.basicProjectInfo.filterMap (fun r => r.rsyYear)).filter
      (fun y => 2024 ≤ y)
    let d := years.foldl (fun m y => setYear m y (getYear m y + 1)) []
    if d.isEmpty then yd else d

/-- The rows a `ProjectYears_By*` view query returns for one key:
`WHERE key = ? ORDER BY RSY_YEAR`, projected to (year, count). -/
def yearViewRowsFor (vr : List YearViewRow) (key : String) : List (Int × Nat) :=
  (sortBy (fun r => r.year) (vr.filter (fun r => r.key == key))).map
    (fun r => (r.year, r.total_projects))

/-- The fallback year aggregation over the base table for one key selector:
`WHERE <sel> = ? AND RSY_YEAR >= 2024 GROUP BY RSY_YEAR ORDER BY
RSY_YEAR`. -/
def yearFallbackRowsFor (base : List ProjectRow) (sel : ProjectRow → String)
    (key : String) : List (Int × Nat) :=
  groupYearCounts
    (((base.filter (fun r => sel r == key)).filterMap (fun r => r.rsyYear)).filter
      (fun y => 2024 ≤ y))

/-- SQL result rows of `loadFilteredProjectCountByYear` (by district):
the `ProjectYears_ByDistrict` view when present, else the base-table
fallback restricted to `RSY_YEAR >= 2024`. -/
def loadFilteredProjectCountByYearRows (db : Database) (districtNumber : String) :
    List (Int × Nat) :=
  match db.projectYearsByDistrictView with
  | some vr => yearViewRowsFor vr (formatDistrict districtNumber)
  | none => yearFallbackRowsFor db.basicProjectInfo (fun r => r.district)
      (formatDistrict districtNumber)

/-- `loadFilteredProjectCountByYear`: the year map handed to the chart
(an empty chart is drawn when nothing survives, so the result is the built
map either way). -/
def loadFilteredProjectCountByYearStep (db : Database) (districtNumber : String) :
    List (Int × Nat) :=
  buildYearData (loadFilteredProjectCountByYearRows db districtNumber)

/-- SQL result rows of `loadFilteredProjectCountByYearByCounty`. -/
def loadFilteredProjectCountByYearByCountyRows (db : Database) (countyName : String) :
    List (Int × Nat) :=
  match db.projectYearsByCountyView with
  | some vr => yearViewRowsFor vr countyName
  | none => yearFallbackRowsFor db.basicProjectInfo (fun r => r.county) countyName

/-- `loadFilteredProjectCountByYearByCounty`: year map handed to the chart. -/
def loadFilteredProjectCountByYearByCountyStep (db : Database) (countyName : String) :
    List (Int × Nat) :=
  buildYearData (loadFilteredProjectCountByYearByCountyRows db countyName)

/-- `loadFilteredProjectCountByYearByProjectType`: single `GROUP BY
RSY_YEAR ORDER BY RSY_YEAR` query over the crosswalk join (the `NULL`-year
group the SQL would emit is dropped by the chart's truthiness check, which
`buildYearData` models, so only non-null years are grouped). -/
def loadFilteredProjectCountByYearByProjectTypeStep (db : Database)
    (projectType : String) : List (Int × Nat) :=
  buildYearData
    (groupYearCounts ((projectTypeJoin db projectType).filterMap (fun bc => bc.1.rsyYear)))

/-! ### Query layer: table row sets -/

/-- `loadBasicProjectInfo` row query: `SELECT * FROM Basic_Project_Info
LIMIT 1000`. -/
def loadBasicProjectInfoRows (db : Database) : List ProjectRow :=
  db.basicProjectInfo.take 1000

/-- `loadFilteredBasicProjectInfo` row query: `WHERE DISTRICT = ? LIMIT
1000`. -/
def loadFilteredBasicProjectInfoRows (db : Database) (districtNumber : String) :
    List ProjectRow :=
  (db.basicProjectInfo.filter (fun r => r.district == formatDistrict districtNumber)).take 1000

/-- `loadFilteredBasicProjectInfoByCounty` row query: `WHERE COUNTY = ?
LIMIT 1000`. -/
def loadFilteredBasicProjectInfoByCountyRows (db : Database) (countyName : String) :
    List ProjectRow :=
  (db.basicProjectInfo.filter (fun r => r.county == countyName)).take 1000

/-- `loadFilteredBasicProjectInfoByProjectType` row query: `SELECT b.*`
over the crosswalk join, `LIMIT 1000`. -/
def loadFilteredBasicProjectInfoByProjectTypeRows (db : Database) (projectType : String) :
    List ProjectRow :=
  ((projectTypeJoin db projectType).map (fun bc => bc.1)).take 1000

/-! ### Aggregation dispatcher (`updateChartsAndTable`) -/

/-- Which query variant a refresh runs, as selected by the
`if (currentProjectTypeFilter) ... else if (currentDistrictFilter) ...
else if (currentCountyFilter) ... else ...` chain. -/
inductive QueryVariant where
  | byProjectType (projectType : String)
  | byDistrict (districtNumber : String)
  | byCounty (countyName : String)
  | unfiltered
  deriving DecidableEq

/-- The dispatch decision of `updateChartsAndTable`: project type first,
else district, else county, else unfiltered (truthiness of each filter
variable decides). -/
def updateChartsAndTableVariant (st : FilterState) : QueryVariant :=
  match activeVal st.currentProjectTypeFilter with
  | some pt => .byProjectType pt
  | none =>
    match activeVal st.currentDistrictFilter with
    | some d => .byDistrict d
    | none =>
      match activeVal st.currentCountyFilter with
      | some c => .byCounty c
      | none => .unfiltered

/-- The ephemeral aggregate state driving the three views: pie-chart
counts, year chart map, table rows. -/
structure AggState where
  counts : ProjectCounts
  yearData : List (Int × Nat)
  rows : List ProjectRow
  deriving DecidableEq

/-- `loadBasicProjectInfo`: queries the capped unfiltered row set; on an
empty result only the record count is touched and the function returns
(previous table and charts stay); otherwise it refreshes the year chart
and the pie chart and loads the rows into the table. -/
def loadBasicProjectInfoStep (db : Database) (a : AggState) : AggState :=
  let rows := loadBasicProjectInfoRows db
  if rows.isEmpty then a
  else
    let a1 := { a with yearData := loadProjectCountByYearStep db a.yearData }
    let a2 := { a1 with counts := loadProjectsAwardedDataStep db a1.counts }
    { a2 with rows := rows }

/-- `updateChartsAndTable`: dispatches on the active filters and runs the
three loaders of the selected variant (the filtered table loaders clear
the table on an empty result, so their row component is the capped
filtered row set either way). -/
def updateChartsAndTable (db : Database) (st : FilterState) (a : AggState) : AggState :=
  match updateChartsAndTableVariant st with
  | .byProjectType pt =>
    { counts := loadFilteredProjectsAwardedDataByProjectTypeStep db pt
      yearData := loadFilteredProjectCountByYearByProjectTypeStep db pt
      rows := loadFilteredBasicProjectInfoByProjectTypeRows db pt }
  | .byDistrict d =>
    { counts := loadFilteredProjectsAwardedDataStep db a.counts d
      yearData := loadFilteredProjectCountByYearStep db d
      rows := loadFilteredBasicProjectInfoRows db d }
  | .byCounty c =>
    { counts := loadFilteredProjectsAwardedDataByCountyStep db c
      yearData := loadFilteredProjectCountByYearByCountyStep db c
      rows := loadFilteredBasicProjectInfoByCountyRows db c }
  | .unfiltered =>
    let a1 := { a with counts := loadProjectsAwardedDataStep db a.counts }
    let a2 := { a1 with yearData := loadProjectCountByYearStep db a1.yearData }
    loadBasicProjectInfoStep db a2

/-- A dashboard session: the loaded snapshot, the filter state, and the
aggregate state of the views. The queries are all `SELECT`s, so a refresh
writes only the aggregate component. -/
structure SessionState where
  db : Database
  filter : FilterState
  agg : AggState
  deriving DecidableEq

/-- A full refresh of the session: `updateChartsAndTable` against the
session's snapshot and filter state. -/
def refreshSession (s : SessionState) : SessionState :=
  { s with agg := updateChartsAndTable s.db s.filter s.agg }

/-! ### Supporting lemmas -/

theorem mem_sortBy {key : α → Int} {l : List α} {b : α} :
    b ∈ sortBy key l ↔ b ∈ l := by
  induction l with
  | nil => simp [sortBy]
  | cons y ys ih =>
    show b ∈ insertSortedBy key y (sortBy key ys) ↔ _
    rw [mem_insertSortedBy, ih]
    simp

/-! ### Claim C1 — filter selection is not mutually exclusive -/

/-- Claim C1, as stated, is false on the code: after
`applyCountyFilter "Fayette"` then `applyDistrictFilter "7"`, the county
filter variable is still set, so the state is not `District(7)` only. -/
theorem filter_selection_not_exclusive_cex :
    applyDistrictFilter (applyCountyFilter initialFilterState "Fayette") "7" ≠
      { currentDistrictFilter := some "7", currentCountyFilter := none,
        currentProjectTypeFilter := none } ∧
    applyDistrictFilter (applyCountyFilter initialFilterState "Fayette") "7" =
      { currentDistrictFilter := some "7", currentCountyFilter := some "Fayette",
        currentProjectTypeFilter := none } := by
  decide

/-- Claim C1 (amended): each of the three selection operations sets only
its own filter variable and leaves the other two categories untouched, so
filters accumulate; in particular selecting county "Fayette" and then
district 7 leaves both the district and the county filter active. -/
theorem filter_selection_accumulates (st : FilterState) (d c pt : String) :
    (applyDistrictFilter st d).currentDistrictFilter = some d ∧
    (applyDistrictFilter st d).currentCountyFilter = st.currentCountyFilter ∧
    (applyDistrictFilter st d).currentProjectTypeFilter = st.currentProjectTypeFilter ∧
    (applyCountyFilter st c).currentCountyFilter = some c ∧
    (applyCountyFilter st c).currentDistrictFilter = st.currentDistrictFilter ∧
    (applyCountyFilter st c).currentProjectTypeFilter = st.currentProjectTypeFilter ∧
    (applyProjectTypeFilter st pt).currentProjectTypeFilter = some pt ∧
    (applyProjectTypeFilter st pt).currentDistrictFilter = st.currentDistrictFilter ∧
    (applyProjectTypeFilter st pt).currentCountyFilter = st.currentCountyFilter ∧
    applyDistrictFilter (applyCountyFilter st "Fayette") "7" =
      { currentDistrictFilter := some "7", currentCountyFilter := some "Fayette",
        currentProjectTypeFilter := st.currentProjectTypeFilter } :=
  ⟨rfl, rfl, rfl, rfl, rfl, rfl, rfl, rfl, rfl, rfl⟩

/-! ### Claim C3 — district range validation happens at option load, not at selection -/

/-- Claim C3, as stated, is false on the code: `applyDistrictFilter`
performs no range validation, so selecting district 0 (or 13) changes the
filter state and proceeds to the downstream queries. -/
theorem selectDistrict_out_of_range_accepted_cex :
    applyDistrictFilter initialFilterState "0" ≠ initialFilterState ∧
    (applyDistrictFilter initialFilterState "0").currentDistrictFilter = some "0" ∧
    applyDistrictFilter initialFilterState "13" ≠ initialFilterState ∧
    (applyDistrictFilter initialFilterState "13").currentDistrictFilter = some "13" := by
  decide

/-- Claim C3 (amended): the 1–12 range check lives in
`loadDistrictOptions` — every district number offered in the dropdown
built from the `KYTC_Districts` names lies in 1–12 — while
`applyDistrictFilter` itself accepts any value and unconditionally
overwrites the district filter variable. -/
theorem district_validation_at_option_load (names : List String) (n : Nat)
    (hn : n ∈ districtOptionsFromNames names) :
    (1 ≤ n ∧ n ≤ 12) ∧
    ∀ (st : FilterState) (d : String),
      applyDistrictFilter st d = { st with currentDistrictFilter := some d } := by
  refine ⟨?_, fun st d => rfl⟩
  have hn' : n ∈ (names.filterMap (fun nm =>
      (extractFirstNumber nm).bind (fun k =>
        if 1 ≤ k ∧ k ≤ 12 then some k else none))).dedup := by
    simpa [districtOptionsFromNames, mem_sortBy] using hn
  rcases List.mem_filterMap.mp (List.mem_dedup.mp hn') with ⟨nm, _, hf⟩
  rcases Option.bind_eq_some.mp hf with ⟨k, _, hk⟩
  by_cases hkr : 1 ≤ k ∧ k ≤ 12
  · rw [if_pos hkr] at hk
    cases hk
    exact hkr
  · rw [if_neg hkr] at hk
    cases hk

/-- Witness for the amended C3 at a concrete option list. -/
theorem district_validation_at_option_load_witness :
    7 ∈ districtOptionsFromNames ["District 7", "Region 99"] ∧
    ((1 ≤ 7 ∧ 7 ≤ 12) ∧
      ∀ (st : FilterState) (d : String),
        applyDistrictFilter st d = { st with currentDistrictFilter := some d }) :=
  ⟨by decide, district_validation_at_option_load ["District 7", "Region 99"] 7 (by decide)⟩

/-! ### Claim C7 — every row query caps its result at 1000 -/

/-- Claim C7: all four table row queries (`LIMIT 1000` in each) return at
most 1000 rows. -/
theorem queryRows_capped_at_1000 (db : Database) (d c pt : String) :
    (loadBasicProjectInfoRows db).length ≤ 1000 ∧
    (loadFilteredBasicProjectInfoRows db d).length ≤ 1000 ∧
    (loadFilteredBasicProjectInfoByCountyRows db c).length ≤ 1000 ∧
    (loadFilteredBasicProjectInfoByProjectTypeRows db pt).length ≤ 1000 := by
  refine ⟨?_, ?_, ?_, ?_⟩ <;>
    simp [loadBasicProjectInfoRows, loadFilteredBasicProjectInfoRows,
      loadFilteredBasicProjectInfoByCountyRows,
      loadFilteredBasicProjectInfoByProjectTypeRows, List.length_take]

/-! ### Claim C8 — clear-all resets state and titles -/

/-- Claim C8: from any prior state, `clearAllFilters` resets all three
filter variables to `null`, and the two derived titles revert to their
unsuffixed forms. -/
theorem clearAllFilters_resets_state_and_titles (db : Option Database) (st : FilterState) :
    clearAllFilters st = initialFilterState ∧
    projectsPanelTitle (clearAllFilters st) = "Projects" ∧
    tableDataTitle db (clearAllFilters st) = "Highway Projects Data" :=
  ⟨rfl, rfl, rfl⟩

/-! ### Claim C10 — dispatcher precedence -/

/-- Claim C10: `updateChartsAndTable` applies a fixed precedence — an
active project-type filter wins, else an active district filter, else an
active county filter, else the unfiltered queries — so exactly one filter
drives any given refresh. -/
theorem updateChartsAndTable_precedence (st : FilterState) (pt d c : String) :
    (activeVal st.currentProjectTypeFilter = some pt →
      updateChartsAndTableVariant st = .byProjectType pt) ∧
    (activeVal st.currentProjectTypeFilter = none →
      activeVal st.currentDistrictFilter = some d →
      updateChartsAndTableVariant st = .byDistrict d) ∧
    (activeVal st.currentProjectTypeFilter = none →
      activeVal st.currentDistrictFilter = none →
      activeVal st.currentCountyFilter = some c →
      updateChartsAndTableVariant st = .byCounty c) ∧
    (activeVal st.currentProjectTypeFilter = none →
      activeVal st.currentDistrictFilter = none →
      activeVal st.currentCountyFilter = none →
      updateChartsAndTableVariant st = .unfiltered) := by
  refine ⟨fun h1 => ?_, fun h1 h2 => ?_, fun h1 h2 h3 => ?_, fun h1 h2 h3 => ?_⟩ <;>
    simp [updateChartsAndTableVariant, h1]
  · simp [h2]
  · simp [h2, h3]
  · simp [h2, h3]

/-- Witness for C10 at a state with all three filter variables set:
the project-type filter drives the refresh. -/
theorem updateChartsAndTable_precedence_witness :
    activeVal (FilterState.currentProjectTypeFilter
        ⟨some "7", some "Fayette", some "CAT"⟩) = some "CAT" ∧
    updateChartsAndTableVariant ⟨some "7", some "Fayette", some "CAT"⟩ =
      .byProjectType "CAT" :=
  ⟨by decide,
    (updateChartsAndTable_precedence ⟨some "7", some "Fayette", some "CAT"⟩
      "CAT" "7" "Fayette").1 (by decide)⟩

/-! ### Claim C6 — spatial key lookup tiers -/

theorem layerLookup_self {keys : List String} {name : String} (h : name ∈ keys) :
    layerLookup keys name = some name := by
  induction keys with
  | nil => cases h
  | cons k ks ih =>
    by_cases hk : k = name
    · subst hk
      simp [layerLookup, List.find?]
    · have hbe : (k == name) = false := by simpa using hk
      rcases List.mem_cons.mp h with rfl | h
      · simp at hbe
      · simpa [layerLookup, List.find?, hbe] using ih h

/-- Claim C6: `zoomToCounty` resolves through tiers — an exact stored key
first; failing the exact, uppercased, lowercased and title-cased lookups
it returns the first substring match in either direction; it comes back
empty only when every tier fails. Concretely, with stored key "Fayette",
the lookups "FAYETTE", "fayette" and "Fayette" all hit the "Fayette"
feature group, and a key with no case-variant or substring relation to any
stored key yields no match (no pan). -/
theorem zoomToCounty_tiers (keys : List String) (name : String) :
    (name ∈ keys → zoomToCounty keys name = some name) ∧
    (layerLookup keys name = none → layerLookup keys (jsToUpper name) = none →
      layerLookup keys (jsToLower name) = none →
      layerLookup keys (jsTitleCase name) = none →
      zoomToCounty keys name = (substringMatches keys name).head?) ∧
    (zoomToCounty keys name = none ↔
      (layerLookup keys name = none ∧ layerLookup keys (jsToUpper name) = none ∧
       layerLookup keys (jsToLower name) = none ∧
       layerLookup keys (jsTitleCase name) = none ∧
       substringMatches keys name = [])) ∧
    zoomToCounty ["Fayette", "Jefferson"] "FAYETTE" = some "Fayette" ∧
    zoomToCounty ["Fayette", "Jefferson"] "fayette" = some "Fayette" ∧
    zoomToCounty ["Fayette", "Jefferson"] "Fayette" = some "Fayette" ∧
    zoomToCounty ["Fayette", "Jefferson"] "Nonexistent County" = none := by
  refine ⟨fun h => ?_, fun h1 h2 h3 h4 => ?_, ?_, by decide, by decide, by decide, by decide⟩
  · simp [zoomToCounty, layerLookup_self h, Option.orElse]
  · simp [zoomToCounty, h1, h2, h3, h4, Option.orElse]
  · constructor
    · intro h
      rcases hx : layerLookup keys name with _ | k <;>
        rcases hu : layerLookup keys (jsToUpper name) with _ | k <;>
        rcases hl : layerLookup keys (jsToLower name) with _ | k <;>
        rcases ht : layerLookup keys (jsTitleCase name) with _ | k <;>
        simp [zoomToCounty, hx, hu, hl, ht, Option.orElse] at h
      simp [hx, hu, hl, ht]
      exact h
    · rintro ⟨h1, h2, h3, h4, h5⟩
      simp [zoomToCounty, h1, h2, h3, h4, h5, Option.orElse]

/-- Witness for C6's conditional parts at a concrete stored-key list. -/
theorem zoomToCounty_tiers_witness :
    "Fayette" ∈ ["Fayette", "Jefferson"] ∧
    zoomToCounty ["Fayette", "Jefferson"] "Fayette" = some "Fayette" :=
  ⟨by decide, (zoomToCounty_tiers ["Fayette", "Jefferson"] "Fayette").1 (by decide)⟩

/-! ### Claim C2 — the project-type awarded query counts every match as awarded -/

/-- The behaviour claim C2 and spec §4.1 describe for the project-type
variant of `queryAwardedVsCurrent`: among base rows whose work type
crosswalks to the selected category, `awarded` counts the rows with the
awarded flag set and `current` the rest. Stated for comparison with
`loadFilteredProjectsAwardedDataByProjectTypeStep`, whose `CASE` splits on
the crosswalk category instead of the awarded flag. -/
def specAwardedVsCurrentByProjectType (db : Database) (projectType : String) : ProjectCounts :=
  awardedCurrentCounts db.basicProjectInfo (fun r =>
    !((db.crosswalk.filter (fun c =>
        c.raw_project_type == r.typeWork && c.dropdown_category == projectType)).isEmpty))

/-- A snapshot with a single matching project whose awarded flag is not
set (a "current" project). -/
def dbOneCurrentTypedProject : Database :=
  { basicProjectInfo := [⟨"District 07", "Fayette", "X", some 2025, none⟩]
    crosswalk := [⟨"X", "CAT", "Category"⟩]
    projectsAwardedView := none
    projectsAwardedByDistrictView := none
    projectsAwardedByCountyView := none
    projectCountYearView := none
    projectYearsByDistrictView := none
    projectYearsByCountyView := none }

/-- Claim C2 is right and the code is wrong: on a snapshot whose single
matching record is not awarded, the query returns awarded = 1, current = 0
(its `WHERE c.dropdown_category = ?` makes the `ELSE 'Current'` branch of
the `CASE` unreachable), where the specified count by award status is
awarded = 0, current = 1. -/
theorem projectType_counts_every_match_as_awarded :
    loadFilteredProjectsAwardedDataByProjectTypeStep dbOneCurrentTypedProject "CAT" =
      { awarded := 1, current := 0 } ∧
    specAwardedVsCurrentByProjectType dbOneCurrentTypedProject "CAT" =
      { awarded := 0, current := 1 } ∧
    ({ awarded := 1, current := 0 } : ProjectCounts) ≠ { awarded := 0, current := 1 } ∧
    (∀ (db : Database) (pt : String),
      (loadFilteredProjectsAwardedDataByProjectTypeStep db pt).current = 0) := by
  refine ⟨by decide, by decide, by decide, fun db pt => ?_⟩
  have h : (projectTypeJoin db pt).filter
      (fun bc => !(bc.2.dropdown_category == pt)) = [] := by
    rw [List.filter_eq_nil_iff]
    intro bc hbc
    rcases List.mem_flatMap.mp hbc with ⟨b, _, hb⟩
    rcases List.mem_map.mp hb with ⟨c, hc, hbc'⟩
    have hcat : c.dropdown_category == pt := (List.mem_filter.mp hc).2
    subst hbc'
    simp [hcat]
  simp [loadFilteredProjectsAwardedDataByProjectTypeStep, h]

/-! ### Claim C4 — fallback structure of the awarded-vs-current variants -/

/-- A snapshot with no pre-aggregated views and one awarded District 07
project. -/
def dbNoViews : Database :=
  { basicProjectInfo := [⟨"District 07", "Fayette", "X", some 2025, some "AUG 2025"⟩]
    crosswalk := []
    projectsAwardedView := none
    projectsAwardedByDistrictView := none
    projectsAwardedByCountyView := none
    projectCountYearView := none
    projectYearsByDistrictView := none
    projectYearsByCountyView := none }

/-- Claim C4, as stated, is false on the code: when the
`ProjectsAwarded_ByDistrict` view is absent, the district variant performs
no fallback aggregation at all — the catch branch only logs, leaving the
previous counts (here 5/5) in place, although the base table holds exactly
one matching awarded row (so the equivalent aggregation yields 1/0). -/
theorem awardedByDistrict_has_no_fallback_cex :
    loadFilteredProjectsAwardedDataStep dbNoViews { awarded := 5, current := 5 } "7" =
      { awarded := 5, current := 5 } ∧
    awardedCurrentCounts dbNoViews.basicProjectInfo
      (fun r => r.district == "District 07") = { awarded := 1, current := 0 } ∧
    ({ awarded := 5, current := 5 } : ProjectCounts) ≠ { awarded := 1, current := 0 } := by
  decide

/-- Claim C4 (amended): only the county variant has the claimed
view-then-fallback structure (view absent → awarded-flag aggregation over
the base table; view present with no matching row → `{0, 0}`). The
district variant attempts only its view, returns `{0, 0}` when the view
has no matching row, and leaves the previous counts unchanged when the
view is absent. The unfiltered variant's fallback counts every base row as
current. -/
theorem awardedVsCurrent_fallback_structure (db : Database) (pc : ProjectCounts)
    (d c : String) :
    (db.projectsAwardedByCountyView = none →
      loadFilteredProjectsAwardedDataByCountyStep db c =
        awardedCurrentCounts db.basicProjectInfo (fun r => r.county == c)) ∧
    (∀ rows, db.projectsAwardedByCountyView = some rows →
      rows.find? (fun r => r.key == c) = none →
      loadFilteredProjectsAwardedDataByCountyStep db c = { awarded := 0, current := 0 }) ∧
    (∀ rows, db.projectsAwardedByDistrictView = some rows →
      rows.find? (fun r => r.key == formatDistrict d) = none →
      loadFilteredProjectsAwardedDataStep db pc d = { awarded := 0, current := 0 }) ∧
    (db.projectsAwardedByDistrictView = none →
      loadFilteredProjectsAwardedDataStep db pc d = pc) ∧
    (db.projectsAwardedView = none →
      loadProjectsAwardedDataStep db pc =
        { awarded := 0, current := db.basicProjectInfo.length }) := by
  refine ⟨fun h => ?_, fun rows h hf => ?_, fun rows h hf => ?_, fun h => ?_, fun h => ?_⟩
  · simp [loadFilteredProjectsAwardedDataByCountyStep, h]
  · simp [loadFilteredProjectsAwardedDataByCountyStep, h, hf]
  · simp [loadFilteredProjectsAwardedDataStep, h, hf]
  · simp [loadFilteredProjectsAwardedDataStep, h]
  · simp [loadProjectsAwardedDataStep, h]

/-- Witness for the amended C4 at the viewless snapshot. -/
theorem awardedVsCurrent_fallback_structure_witness :
    dbNoViews.projectsAwardedByCountyView = none ∧
    loadFilteredProjectsAwardedDataByCountyStep dbNoViews "Fayette" =
      awardedCurrentCounts dbNoViews.basicProjectInfo (fun r => r.county == "Fayette") :=
  ⟨rfl,
    (awardedVsCurrent_fallback_structure dbNoViews { awarded := 0, current := 0 }
      "7" "Fayette").1 rfl⟩

/-! ### Claim C5 — view path vs fallback path for the year series -/

/-- The year/count rows of one key's group in a spec-modelled
`ProjectYears_By*` view. -/
def specYearChunk (base : List ProjectRow) (sel : ProjectRow → String)
    (k : String) : List YearViewRow :=
  (groupYearCounts ((base.filter (fun r => sel r == k)).filterMap (fun r => r.rsyYear))).map
    (fun p => ⟨k, p.1, p.2⟩)

/-- Modelled from the spec: the `ProjectYears_ByDistrict` and
`ProjectYears_ByCounty` pre-aggregated views live inside the SQLite
snapshot file (`HighwayPlan_data.db`), which is data, not repository
source; per the spec they hold, for each key, the year→count aggregation
of the base project table that the fallback recomputes on the fly
("falls back to an equivalent on-the-fly aggregation over the base
project table"). -/
def specYearView (base : List ProjectRow) (sel : ProjectRow → String) : List YearViewRow :=
  ((base.map sel).dedup).flatMap (specYearChunk base sel)

theorem filter_key_flatMap_eq (f : String → List YearViewRow) (k : String) :
    ∀ ds : List String, ds.Nodup →
      (∀ d r, r ∈ f d → r.key = d) →
      (k ∉ ds → f k = []) →
      (ds.flatMap f).filter (fun r => r.key == k) = f k := by
  intro ds
  induction ds with
  | nil =>
    intro _ _ hk
    simpa using (hk (by simp)).symm
  | cons d ds ih =>
    intro hnd hkeys hk
    rcases List.nodup_cons.mp hnd with ⟨hd, hnd'⟩
    rw [List.flatMap_cons, List.filter_append]
    by_cases hdk : d = k
    · subst hdk
      have h1 : (f d).filter (fun r => r.key == d) = f d :=
        List.filter_eq_self.mpr (fun r hr => by simp [hkeys d r hr])
      have h2 : (ds.flatMap f).filter (fun r => r.key == d) = [] := by
        rw [List.filter_eq_nil_iff]
        intro r hr
        rcases List.mem_flatMap.mp hr with ⟨d', hd', hrd⟩
        have hkey : r.key = d' := hkeys d' r hrd
        simp only [hkey, beq_iff_eq, Bool.not_eq_true]
        intro hdd
        exact hd (hdd ▸ hd')
      rw [h1, h2, List.append_nil]
    · have h1 : (f d).filter (fun r => r.key == k) = [] := by
        rw [List.filter_eq_nil_iff]
        intro r hr
        simp [hkeys d r hr, hdk]
      rw [h1, List.nil_append]
      refine ih hnd' hkeys (fun hkds => hk ?_)
      simp only [List.mem_cons, not_or]
      exact ⟨fun h => hdk h.symm, hkds⟩

theorem sortedBy_groupYearCounts (years : List Int) :
    SortedBy (fun p : Int × Nat => p.1) (groupYearCounts years) := by
  refine List.pairwise_map.mpr ?_
  simpa using sortedBy_sortBy id years.dedup

theorem specYearChunk_key (base : List ProjectRow) (sel : ProjectRow → String)
    (d : String) (r : YearViewRow) (hr : r ∈ specYearChunk base sel d) : r.key = d := by
  rcases List.mem_map.mp hr with ⟨p, _, hp⟩
  rw [← hp]

theorem yearViewRowsFor_specYearView (base : List ProjectRow)
    (sel : ProjectRow → String) (k : String) :
    yearViewRowsFor (specYearView base sel) k =
      groupYearCounts ((base.filter (fun r => sel r == k)).filterMap (fun r => r.rsyYear)) := by
  have hempty : k ∉ (base.map sel).dedup → specYearChunk base sel k = [] := by
    intro hk
    have hfil : base.filter (fun r => sel r == k) = [] := by
      rw [List.filter_eq_nil_iff]
      intro r hr hc
      have hsels : sel r = k := by simpa using hc
      exact hk (List.mem_dedup.mpr (List.mem_map.mpr ⟨r, hr, hsels⟩))
    rw [specYearChunk, hfil]
    rfl
  have hfilter := filter_key_flatMap_eq (specYearChunk base sel) k
    ((base.map sel).dedup) (List.nodup_dedup _) (specYearChunk_key base sel) hempty
  have hsorted : SortedBy (fun r : YearViewRow => r.year) (specYearChunk base sel k) := by
    refine List.pairwise_map.mpr ?_
    simpa using sortedBy_groupYearCounts
      ((base.filter (fun r => sel r == k)).filterMap (fun r => r.rsyYear))
  rw [yearViewRowsFor, specYearView, hfilter, sortBy_eq_of_sortedBy hsorted,
    specYearChunk, List.map_map]
  have hcomp : ((fun r : YearViewRow => (r.year, r.total_projects)) ∘
      fun p : Int × Nat => (⟨k, p.1, p.2⟩ : YearViewRow)) = id := by
    funext p
    rfl
  rw [hcomp, List.map_id]

theorem yearFallbackRowsFor_eq_unrestricted (base : List ProjectRow)
    (sel : ProjectRow → String) (k : String)
    (hy : ∀ y ∈ (base.filter (fun r => sel r == k)).filterMap (fun r => r.rsyYear), 2024 ≤ y) :
    yearFallbackRowsFor base sel k =
      groupYearCounts ((base.filter (fun r => sel r == k)).filterMap (fun r => r.rsyYear)) := by
  rw [yearFallbackRowsFor]
  congr 1
  exact List.filter_eq_self.mpr (fun y hyy => by simpa using hy y hyy)

/-! #### Year-map algebra: `setYear`, `getYear`, and the two object builders -/

/-- Strictly ascending keys: the invariant `setYear` maintains, mirroring
the unique, ascending integer keys of the JavaScript `yearData` object. -/
abbrev StrictKeySorted (m : List (Int × Nat)) : Prop :=
  m.Pairwise (fun a b => a.1 < b.1)

theorem setYear_cons (k : Int) (v : Nat) (rest : List (Int × Nat)) (y : Int) (c : Nat) :
    setYear ((k, v) :: rest) y c =
      if y < k then (y, c) :: (k, v) :: rest
      else if y = k then (y, c) :: rest
      else (k, v) :: setYear rest y c := rfl

theorem getYear_cons (k : Int) (v : Nat) (rest : List (Int × Nat)) (y : Int) :
    getYear ((k, v) :: rest) y = if k = y then v else getYear rest y := rfl

theorem mem_setYear {p : Int × Nat} :
    ∀ {m : List (Int × Nat)} {y : Int} {c : Nat},
      p ∈ setYear m y c → p = (y, c) ∨ p ∈ m := by
  intro m
  induction m with
  | nil =>
    intro y c hp
    simpa [setYear] using hp
  | cons q rest ih =>
    intro y c hp
    obtain ⟨k, v⟩ := q
    rw [setYear_cons] at hp
    by_cases h1 : y < k
    · rw [if_pos h1] at hp
      rcases List.mem_cons.mp hp with rfl | hp
      · exact Or.inl rfl
      · exact Or.inr hp
    · rw [if_neg h1] at hp
      by_cases h2 : y = k
      · rw [if_pos h2] at hp
        rcases List.mem_cons.mp hp with rfl | hp
        · exact Or.inl rfl
        · exact Or.inr (List.mem_cons_of_mem _ hp)
      · rw [if_neg h2] at hp
        rcases List.mem_cons.mp hp with rfl | hp
        · exact Or.inr (List.mem_cons_self _ _)
        · rcases ih hp with h | h
          · exact Or.inl h
          · exact Or.inr (List.mem_cons_of_mem _ h)

theorem strictKeySorted_setYear :
    ∀ {m : List (Int × Nat)} (y : Int) (c : Nat),
      StrictKeySorted m → StrictKeySorted (setYear m y c) := by
  intro m
  induction m with
  | nil =>
    intro y c _
    simp [setYear, StrictKeySorted]
  | cons q rest ih =>
    intro y c h
    obtain ⟨k, v⟩ := q
    rcases List.pairwise_cons.mp h with ⟨hk, hrest⟩
    rw [setYear_cons]
    by_cases h1 : y < k
    · rw [if_pos h1]
      refine List.pairwise_cons.mpr ⟨?_, h⟩
      intro b hb
      rcases List.mem_cons.mp hb with rfl | hb
      · exact h1
      · exact lt_trans h1 (hk b hb)
    · rw [if_neg h1]
      by_cases h2 : y = k
      · rw [if_pos h2]
        refine List.pairwise_cons.mpr ⟨?_, hrest⟩
        intro b hb
        exact h2 ▸ hk b hb
      · rw [if_neg h2]
        refine List.pairwise_cons.mpr ⟨?_, ih y c hrest⟩
        intro b hb
        rcases mem_setYear hb with rfl | hb
        · exact lt_of_le_of_ne (not_lt.mp h1) (fun he => h2 he.symm)
        · exact hk b hb

theorem getYear_setYear :
    ∀ (m : List (Int × Nat)) (y : Int) (c : Nat) (z : Int),
      getYear (setYear m y c) z = if z = y then c else getYear m z := by
  intro m
  induction m with
  | nil =>
    intro y c z
    show getYear [(y, c)] z = if z = y then c else getYear [] z
    rw [getYear_cons]
    split_ifs with ha hb <;> first | rfl | omega
  | cons q rest ih =>
    intro y c z
    obtain ⟨k, v⟩ := q
    rw [setYear_cons]
    by_cases h1 : y < k
    · rw [if_pos h1, getYear_cons, getYear_cons]
      split_ifs <;> first | rfl | omega
    · rw [if_neg h1]
      by_cases h2 : y = k
      · rw [if_pos h2, getYear_cons, getYear_cons]
        split_ifs <;> first | rfl | omega
      · rw [if_neg h2, getYear_cons, getYear_cons, ih y c z]
        split_ifs <;> first | rfl | omega

theorem getYear_eq_zero_of_not_mem :
    ∀ (m : List (Int × Nat)) (z : Int), z ∉ m.map Prod.fst → getYear m z = 0 := by
  intro m
  induction m with
  | nil => intro z _; rfl
  | cons q rest ih =>
    intro z hz
    obtain ⟨k, v⟩ := q
    rw [List.map_cons, List.mem_cons, not_or] at hz
    rw [getYear_cons, if_neg (fun h => hz.1 h.symm)]
    exact ih z hz.2

/-- Two year maps with strictly ascending keys and no zero values that
agree on every lookup are equal. -/
theorem yearMap_ext :
    ∀ (m m' : List (Int × Nat)), StrictKeySorted m → StrictKeySorted m' →
      (∀ p ∈ m, p.2 ≠ 0) → (∀ p ∈ m', p.2 ≠ 0) →
      (∀ z, getYear m z = getYear m' z) → m = m' := by
  intro m
  induction m with
  | nil =>
    intro m' _ _ _ hv' hz
    cases m' with
    | nil => rfl
    | cons q' rest' =>
      obtain ⟨k', v'⟩ := q'
      have h := hz k'
      rw [getYear_cons, if_pos rfl] at h
      exact absurd h.symm (hv' (k', v') (List.mem_cons_self _ _))
  | cons q rest ih =>
    intro m' hs hs' hv hv' hz
    obtain ⟨k, v⟩ := q
    cases m' with
    | nil =>
      have h := hz k
      rw [getYear_cons, if_pos rfl] at h
      exact absurd h (hv (k, v) (List.mem_cons_self _ _))
    | cons q' rest' =>
      obtain ⟨k', v'⟩ := q'
      rcases List.pairwise_cons.mp hs with ⟨hk, hsrest⟩
      rcases List.pairwise_cons.mp hs' with ⟨hk', hsrest'⟩
      have hkk : k = k' := by
        by_contra hne
        rcases lt_or_gt_of_ne hne with h | h
        · have h1 := hz k
          rw [getYear_cons, getYear_cons, if_pos rfl, if_neg (ne_of_gt h)] at h1
          rw [getYear_eq_zero_of_not_mem rest' k ?_] at h1
          · exact absurd h1 (hv (k, v) (List.mem_cons_self _ _))
          · intro hmem
            rcases List.mem_map.mp hmem with ⟨p, hp, hpk⟩
            exact absurd (hpk ▸ hk' p hp) (not_lt.mpr (le_of_lt h))
        · have h1 := hz k'
          rw [getYear_cons, getYear_cons, if_pos rfl, if_neg (ne_of_gt h)] at h1
          rw [getYear_eq_zero_of_not_mem rest k' ?_] at h1
          · exact absurd h1.symm (hv' (k', v') (List.mem_cons_self _ _))
          · intro hmem
            rcases List.mem_map.mp hmem with ⟨p, hp, hpk⟩
            exact absurd (hpk ▸ hk p hp) (not_lt.mpr (le_of_lt h))
      subst hkk
      have hvv : v = v' := by
        have h := hz k
        rw [getYear_cons, if_pos rfl, getYear_cons, if_pos rfl] at h
        exact h
      subst hvv
      congr 1
      refine ih rest' hsrest hsrest'
        (fun p hp => hv p (List.mem_cons_of_mem _ hp))
        (fun p hp => hv' p (List.mem_cons_of_mem _ hp)) ?_
      intro z
      by_cases hzk : z = k
      · subst hzk
        rw [getYear_eq_zero_of_not_mem rest z ?_, getYear_eq_zero_of_not_mem rest' z ?_]
        · intro hmem
          rcases List.mem_map.mp hmem with ⟨p, hp, hpk⟩
          exact absurd (hpk ▸ hk' p hp) (lt_irrefl z)
        · intro hmem
          rcases List.mem_map.mp hmem with ⟨p, hp, hpk⟩
          exact absurd (hpk ▸ hk p hp) (lt_irrefl z)
      · have h := hz z
        rw [getYear_cons, if_neg (fun h' => hzk h'.symm),
          getYear_cons, if_neg (fun h' => hzk h'.symm)] at h
        exact h

theorem perm_insertSortedBy (key : α → Int) (x : α) (l : List α) :
    (insertSortedBy key x l).Perm (x :: l) := by
  induction l with
  | nil => exact List.Perm.refl _
  | cons y ys ih =>
    by_cases h : key x ≤ key y
    · rw [show insertSortedBy key x (y :: ys) = x :: y :: ys by simp [insertSortedBy, h]]
    · rw [show insertSortedBy key x (y :: ys) = y :: insertSortedBy key x ys by
        simp [insertSortedBy, h]]
      exact (List.Perm.cons y ih).trans (List.Perm.swap x y ys)

theorem perm_sortBy (key : α → Int) (l : List α) : (sortBy key l).Perm l := by
  induction l with
  | nil => exact List.Perm.refl _
  | cons y ys ih =>
    exact (perm_insertSortedBy key y (sortBy key ys)).trans (List.Perm.cons y ih)

theorem pairwise_lt_of_le_of_ne {l : List Int}
    (h1 : l.Pairwise (· ≤ ·)) (h2 : l.Nodup) : l.Pairwise (· < ·) := by
  induction l with
  | nil => exact List.Pairwise.nil
  | cons x xs ih =>
    rcases List.pairwise_cons.mp h1 with ⟨ha, hb⟩
    rcases List.pairwise_cons.mp h2 with ⟨hc, hd⟩
    exact List.pairwise_cons.mpr
      ⟨fun b hbm => lt_of_le_of_ne (ha b hbm) (hc b hbm), ih hb hd⟩

theorem groupYearCounts_keys (years : List Int) :
    (groupYearCounts years).map Prod.fst = sortBy id years.dedup := by
  rw [groupYearCounts, List.map_map]
  have hcomp : (Prod.fst ∘ fun y => ((y : Int), years.count y)) = id := by
    funext y
    rfl
  rw [hcomp, List.map_id]

theorem strictKeySorted_groupYearCounts (years : List Int) :
    StrictKeySorted (groupYearCounts years) := by
  refine List.pairwise_map.mpr ?_
  have h1 : (sortBy id years.dedup).Pairwise (· ≤ ·) := by
    simpa using sortedBy_sortBy id years.dedup
  have h2 : (sortBy id years.dedup).Nodup :=
    (perm_sortBy id years.dedup).nodup_iff.mpr years.nodup_dedup
  simpa using pairwise_lt_of_le_of_ne h1 h2

theorem values_nonzero_groupYearCounts (years : List Int) :
    ∀ p ∈ groupYearCounts years, p.2 ≠ 0 := by
  intro p hp
  rcases List.mem_map.mp hp with ⟨y, hy, hpy⟩
  have hmem : y ∈ years := List.mem_dedup.mp (mem_sortBy.mp hy)
  rw [← hpy]
  exact fun h => (List.count_eq_zero.mp h) hmem

theorem getYear_map_pair (l : List Int) (f : Int → Nat) (z : Int) :
    getYear (l.map fun y => (y, f y)) z = if z ∈ l then f z else 0 := by
  induction l with
  | nil => simp [getYear]
  | cons y ys ih =>
    rw [List.map_cons, getYear_cons, ih]
    by_cases h : y = z
    · subst h
      simp
    · rw [if_neg h]
      have hiff : z ∈ y :: ys ↔ z ∈ ys := by
        rw [List.mem_cons]
        exact or_iff_right (fun hz => h hz.symm)
      rw [if_congr hiff rfl rfl]

theorem getYear_groupYearCounts (years : List Int) (z : Int) :
    getYear (groupYearCounts years) z = years.count z := by
  rw [groupYearCounts, getYear_map_pair]
  by_cases h : z ∈ sortBy id years.dedup
  · rw [if_pos h]
  · rw [if_neg h]
    exact (List.count_eq_zero.mpr
      (fun hz => h (mem_sortBy.mpr (List.mem_dedup.mpr hz)))).symm

theorem groupYearCounts_eq_nil_iff (years : List Int) :
    groupYearCounts years = [] ↔ years = [] := by
  constructor
  · intro h
    by_contra hne
    obtain ⟨y, hy⟩ := List.exists_mem_of_ne_nil years hne
    have hmem : y ∈ sortBy id years.dedup := mem_sortBy.mpr (List.mem_dedup.mpr hy)
    have : (y, years.count y) ∈ groupYearCounts years :=
      List.mem_map.mpr ⟨y, hmem, rfl⟩
    rw [h] at this
    exact absurd this (List.not_mem_nil _)
  · rintro rfl
    rfl

/-! #### The `buildYearData` fold returns a grouped series unchanged -/

theorem strictKeySorted_buildFold (rows : List (Int × Nat)) :
    ∀ m, StrictKeySorted m →
      StrictKeySorted (rows.foldl
        (fun m p => if p.1 ≠ 0 ∧ p.2 ≠ 0 then setYear m p.1 p.2 else m) m) := by
  induction rows with
  | nil => intro m hm; exact hm
  | cons p rest ih =>
    intro m hm
    rw [List.foldl_cons]
    by_cases hp : p.1 ≠ 0 ∧ p.2 ≠ 0
    · rw [if_pos hp]
      exact ih _ (strictKeySorted_setYear p.1 p.2 hm)
    · rw [if_neg hp]
      exact ih _ hm

theorem values_nonzero_buildFold (rows : List (Int × Nat)) :
    ∀ m, (∀ p ∈ m, p.2 ≠ 0) →
      ∀ p ∈ rows.foldl
        (fun m p => if p.1 ≠ 0 ∧ p.2 ≠ 0 then setYear m p.1 p.2 else m) m, p.2 ≠ 0 := by
  induction rows with
  | nil => intro m hm; exact hm
  | cons q rest ih =>
    intro m hm
    rw [List.foldl_cons]
    by_cases hq : q.1 ≠ 0 ∧ q.2 ≠ 0
    · rw [if_pos hq]
      refine ih _ ?_
      intro p hp
      rcases mem_setYear hp with rfl | hp
      · exact hq.2
      · exact hm p hp
    · rw [if_neg hq]
      exact ih _ hm

theorem getYear_buildFold (z : Int) :
    ∀ (rows : List (Int × Nat)) (m : List (Int × Nat)),
      (∀ p ∈ rows, p.1 ≠ 0 ∧ p.2 ≠ 0) → (rows.map Prod.fst).Nodup →
      getYear (rows.foldl
          (fun m p => if p.1 ≠ 0 ∧ p.2 ≠ 0 then setYear m p.1 p.2 else m) m) z =
        if z ∈ rows.map Prod.fst then getYear rows z else getYear m z := by
  intro rows
  induction rows with
  | nil =>
    intro m _ _
    simp
  | cons q rest ih =>
    intro m hrows hnd
    obtain ⟨k, v⟩ := q
    rcases List.pairwise_cons.mp hnd with ⟨hknotin, hndrest⟩
    have hq := hrows (k, v) (List.mem_cons_self _ _)
    rw [List.foldl_cons, if_pos hq,
      ih _ (fun p hp => hrows p (List.mem_cons_of_mem _ hp)) hndrest,
      List.map_cons, getYear_cons]
    by_cases hmem : z ∈ rest.map Prod.fst
    · have hkz : ¬k = z := fun hk => hknotin z hmem hk
      rw [if_pos hmem, if_pos (List.mem_cons_of_mem _ hmem), if_neg hkz]
    · rw [if_neg hmem, getYear_setYear]
      by_cases hkz : k = z
      · rw [if_pos (List.mem_cons.mpr (Or.inl hkz.symm)), if_pos hkz, if_pos hkz.symm]
      · rw [if_neg hkz, if_neg (fun h => hkz h.symm),
          if_neg (fun h => (List.mem_cons.mp h).elim (fun h' => hkz h'.symm) hmem)]

theorem buildYearData_groupYearCounts (years : List Int)
    (hy : ∀ y ∈ years, y ≠ 0) :
    buildYearData (groupYearCounts years) = groupYearCounts years := by
  have hrows : ∀ p ∈ groupYearCounts years, p.1 ≠ 0 ∧ p.2 ≠ 0 := by
    intro p hp
    refine ⟨?_, values_nonzero_groupYearCounts years p hp⟩
    rcases List.mem_map.mp hp with ⟨y, hyy, hpy⟩
    rw [← hpy]
    exact hy y (List.mem_dedup.mp (mem_sortBy.mp hyy))
  have hnd : ((groupYearCounts years).map Prod.fst).Nodup := by
    rw [groupYearCounts_keys]
    exact (perm_sortBy id years.dedup).nodup_iff.mpr years.nodup_dedup
  refine yearMap_ext _ _ ?_ (strictKeySorted_groupYearCounts years) ?_
    (values_nonzero_groupYearCounts years) ?_
  · exact strictKeySorted_buildFold _ [] List.Pairwise.nil
  · exact values_nonzero_buildFold _ [] (by intro p hp; cases hp)
  · intro z
    rw [buildYearData, getYear_buildFold z _ [] hrows hnd]
    by_cases hmem : z ∈ (groupYearCounts years).map Prod.fst
    · rw [if_pos hmem]
    · rw [if_neg hmem, getYear_eq_zero_of_not_mem _ z hmem]
      rfl

/-! #### The fallback counting loop also builds the grouped series -/

theorem strictKeySorted_accumulate (years : List Int) :
    ∀ m, StrictKeySorted m →
      StrictKeySorted (years.foldl (fun m y => setYear m y (getYear m y + 1)) m) := by
  induction years with
  | nil => intro m hm; exact hm
  | cons y ys ih =>
    intro m hm
    rw [List.foldl_cons]
    exact ih _ (strictKeySorted_setYear y _ hm)

theorem values_nonzero_accumulate (years : List Int) :
    ∀ m, (∀ p ∈ m, p.2 ≠ 0) →
      ∀ p ∈ years.foldl (fun m y => setYear m y (getYear m y + 1)) m, p.2 ≠ 0 := by
  induction years with
  | nil => intro m hm; exact hm
  | cons y ys ih =>
    intro m hm
    rw [List.foldl_cons]
    refine ih _ ?_
    intro p hp
    rcases mem_setYear hp with rfl | hp
    · exact Nat.succ_ne_zero _
    · exact hm p hp

theorem getYear_accumulate (z : Int) :
    ∀ (years : List Int) (m : List (Int × Nat)),
      getYear (years.foldl (fun m y => setYear m y (getYear m y + 1)) m) z =
        getYear m z + years.count z := by
  intro years
  induction years with
  | nil =>
    intro m
    simp
  | cons y ys ih =>
    intro m
    rw [List.foldl_cons, ih, getYear_setYear, List.count_cons]
    by_cases hz : z = y
    · subst hz
      rw [if_pos rfl, if_pos (by simp)]
      omega
    · rw [if_neg hz, if_neg (by simpa using fun h : y = z => hz h.symm)]
      omega

theorem accumulate_eq_groupYearCounts (years : List Int) :
    years.foldl (fun m y => setYear m y (getYear m y + 1)) [] =
      groupYearCounts years := by
  refine yearMap_ext _ _ ?_ (strictKeySorted_groupYearCounts years) ?_
    (values_nonzero_groupYearCounts years) ?_
  · exact strictKeySorted_accumulate _ [] List.Pairwise.nil
  · exact values_nonzero_accumulate _ [] (by intro p hp; cases hp)
  · intro z
    rw [getYear_accumulate z years [], getYear_groupYearCounts]
    exact Nat.zero_add _

/-- Modelled from the spec: the `ProjectCount_Year` pre-aggregated view
lives inside the SQLite snapshot file (`HighwayPlan_data.db`), which is
data, not repository source; per the spec it holds the year→count
aggregation of the whole base project table that the unfiltered fallback
recomputes on the fly. -/
def specProjectCountYearView (base : List ProjectRow) : List (Int × Nat) :=
  groupYearCounts (base.filterMap (fun r => r.rsyYear))

theorem loadProjectCountByYearStep_spec_view (db : Database) (yd : List (Int × Nat))
    (hv : db.projectCountYearView = some (specProjectCountYearView db.basicProjectInfo))
    (hkeys : ∀ y ∈ db.basicProjectInfo.filterMap (fun r => r.rsyYear), y ≠ 0) :
    loadProjectCountByYearStep db yd =
      if db.basicProjectInfo.filterMap (fun r => r.rsyYear) = [] then yd
      else groupYearCounts (db.basicProjectInfo.filterMap (fun r => r.rsyYear)) := by
  by_cases hnil : db.basicProjectInfo.filterMap (fun r => r.rsyYear) = []
  · have h0 : groupYearCounts (db.basicProjectInfo.filterMap (fun r => r.rsyYear)) = [] := by
      rw [hnil]
      rfl
    simp only [loadProjectCountByYearStep, hv, specProjectCountYearView,
      sortBy_eq_of_sortedBy (sortedBy_groupYearCounts _), h0, if_pos hnil]
    simp [sortBy, buildYearData]
  · have hempty : (groupYearCounts
        (db.basicProjectInfo.filterMap (fun r => r.rsyYear))).isEmpty = false := by
      simpa [List.isEmpty_iff] using
        fun h => hnil ((groupYearCounts_eq_nil_iff _).mp h)
    simp only [loadProjectCountByYearStep, hv, specProjectCountYearView,
      sortBy_eq_of_sortedBy (sortedBy_groupYearCounts _),
      buildYearData_groupYearCounts _ hkeys, hempty, if_neg hnil]
    simp

theorem loadProjectCountByYearStep_fallback (db : Database) (yd : List (Int × Nat))
    (hv : db.projectCountYearView = none)
    (hy : ∀ y ∈ db.basicProjectInfo.filterMap (fun r => r.rsyYear), 2024 ≤ y) :
    loadProjectCountByYearStep db yd =
      if db.basicProjectInfo.filterMap (fun r => r.rsyYear) = [] then yd
      else groupYearCounts (db.basicProjectInfo.filterMap (fun r => r.rsyYear)) := by
  have hfil : (db.basicProjectInfo.filterMap (fun r => r.rsyYear)).filter
      (fun y => 2024 ≤ y) = db.basicProjectInfo.filterMap (fun r => r.rsyYear) :=
    List.filter_eq_self.mpr (fun y hy' => by simpa using hy y hy')
  by_cases hnil : db.basicProjectInfo.filterMap (fun r => r.rsyYear) = []
  · have h0 : groupYearCounts (db.basicProjectInfo.filterMap (fun r => r.rsyYear)) = [] := by
      rw [hnil]
      rfl
    simp only [loadProjectCountByYearStep, hv, hfil, accumulate_eq_groupYearCounts,
      h0, if_pos hnil]
    simp [sortBy, buildYearData]
  · have hempty : (groupYearCounts
        (db.basicProjectInfo.filterMap (fun r => r.rsyYear))).isEmpty = false := by
      simpa [List.isEmpty_iff] using
        fun h => hnil ((groupYearCounts_eq_nil_iff _).mp h)
    simp only [loadProjectCountByYearStep, hv, hfil, accumulate_eq_groupYearCounts,
      hempty, if_neg hnil]
    simp

/-- A snapshot whose single District 07 project has plan year 2020, with
the spec-modelled pre-aggregated district year view present. -/
def dbYear2020View : Database :=
  { basicProjectInfo := [⟨"District 07", "Fayette", "X", some 2020, none⟩]
    crosswalk := []
    projectsAwardedView := none
    projectsAwardedByDistrictView := none
    projectsAwardedByCountyView := none
    projectCountYearView := none
    projectYearsByDistrictView :=
      some (specYearView [⟨"District 07", "Fayette", "X", some 2020, none⟩]
        (fun r => r.district))
    projectYearsByCountyView := none }

/-- The same snapshot with the district year view absent, forcing the
fallback query. -/
def dbYear2020Fallback : Database :=
  { dbYear2020View with projectYearsByDistrictView := none }

/-- Claim C5, as stated, is false on the code: the fallback aggregation
adds `RSY_YEAR >= 2024`, so on a snapshot whose matching project has plan
year 2020 the view path yields the singleton series `[(2020, 1)]` while
the fallback yields the empty series. -/
theorem yearSeries_paths_differ_cex :
    loadFilteredProjectCountByYearRows dbYear2020View "7" = [((2020 : Int), 1)] ∧
    loadFilteredProjectCountByYearRows dbYear2020Fallback "7" = [] ∧
    ([((2020 : Int), 1)] : List (Int × Nat)) ≠ [] := by
  refine ⟨?_, by decide, by decide⟩
  show yearViewRowsFor (specYearView _ _) _ = _
  rw [yearViewRowsFor_specYearView]
  decide

/-- Claim C5 (amended): for the unfiltered, by-district and by-county
year-series queries, on snapshots whose pre-aggregated view holds the
spec-described materialization of the base table and whose (matching)
rows all carry plan years ≥ 2024 (the fallback silently drops earlier
years), the view path and the fallback path produce the same series,
sorted ascending by year: the district and county SQL row series and
chart year maps coincide, and the unfiltered chart year map coincides
across the two paths for every prior chart state, equalling the
sorted-ascending grouped series whenever any year row exists. The
by-project-type variant runs a single query with no pre-aggregated view,
so it has no two paths to compare. -/
theorem yearSeries_paths_agree (db db' : Database) (d c : String)
    (yd : List (Int × Nat))
    (hbase : db.basicProjectInfo = db'.basicProjectInfo)
    (hv : db.projectYearsByDistrictView =
      some (specYearView db.basicProjectInfo (fun r => r.district)))
    (hv' : db'.projectYearsByDistrictView = none)
    (hy : ∀ y ∈ (db.basicProjectInfo.filter
        (fun r => r.district == formatDistrict d)).filterMap (fun r => r.rsyYear), 2024 ≤ y)
    (hvc : db.projectYearsByCountyView =
      some (specYearView db.basicProjectInfo (fun r => r.county)))
    (hvc' : db'.projectYearsByCountyView = none)
    (hyc : ∀ y ∈ (db.basicProjectInfo.filter
        (fun r => r.county == c)).filterMap (fun r => r.rsyYear), 2024 ≤ y)
    (hv0 : db.projectCountYearView =
      some (specProjectCountYearView db.basicProjectInfo))
    (hv0' : db'.projectCountYearView = none)
    (hy0 : ∀ y ∈ db.basicProjectInfo.filterMap (fun r => r.rsyYear), 2024 ≤ y) :
    loadFilteredProjectCountByYearRows db d = loadFilteredProjectCountByYearRows db' d ∧
    SortedBy (fun p => p.1) (loadFilteredProjectCountByYearRows db d) ∧
    loadFilteredProjectCountByYearStep db d = loadFilteredProjectCountByYearStep db' d ∧
    loadFilteredProjectCountByYearByCountyRows db c =
      loadFilteredProjectCountByYearByCountyRows db' c ∧
    SortedBy (fun p => p.1) (loadFilteredProjectCountByYearByCountyRows db c) ∧
    loadFilteredProjectCountByYearByCountyStep db c =
      loadFilteredProjectCountByYearByCountyStep db' c ∧
    loadProjectCountByYearStep db yd = loadProjectCountByYearStep db' yd ∧
    (db.basicProjectInfo.filterMap (fun r => r.rsyYear) ≠ [] →
      loadProjectCountByYearStep db yd =
        groupYearCounts (db.basicProjectInfo.filterMap (fun r => r.rsyYear)) ∧
      SortedBy (fun p => p.1) (loadProjectCountByYearStep db yd)) := by
  have hd : loadFilteredProjectCountByYearRows db d =
      groupYearCounts ((db.basicProjectInfo.filter
        (fun r => r.district == formatDistrict d)).filterMap (fun r => r.rsyYear)) := by
    rw [loadFilteredProjectCountByYearRows, hv]
    exact yearViewRowsFor_specYearView db.basicProjectInfo (fun r => r.district)
      (formatDistrict d)
  have hd' : loadFilteredProjectCountByYearRows db' d =
      groupYearCounts ((db.basicProjectInfo.filter
        (fun r => r.district == formatDistrict d)).filterMap (fun r => r.rsyYear)) := by
    rw [loadFilteredProjectCountByYearRows, hv']
    show yearFallbackRowsFor db'.basicProjectInfo (fun r => r.district)
      (formatDistrict d) = _
    rw [← hbase]
    exact yearFallbackRowsFor_eq_unrestricted db.basicProjectInfo (fun r => r.district)
      (formatDistrict d) hy
  have hc : loadFilteredProjectCountByYearByCountyRows db c =
      groupYearCounts ((db.basicProjectInfo.filter
        (fun r => r.county == c)).filterMap (fun r => r.rsyYear)) := by
    rw [loadFilteredProjectCountByYearByCountyRows, hvc]
    exact yearViewRowsFor_specYearView db.basicProjectInfo (fun r => r.county) c
  have hc' : loadFilteredProjectCountByYearByCountyRows db' c =
      groupYearCounts ((db.basicProjectInfo.filter
        (fun r => r.county == c)).filterMap (fun r => r.rsyYear)) := by
    rw [loadFilteredProjectCountByYearByCountyRows, hvc']
    show yearFallbackRowsFor db'.basicProjectInfo (fun r => r.county) c = _
    rw [← hbase]
    exact yearFallbackRowsFor_eq_unrestricted db.basicProjectInfo (fun r => r.county) c hyc
  have hkeys0 : ∀ y ∈ db.basicProjectInfo.filterMap (fun r => r.rsyYear), y ≠ 0 := by
    intro y hy'
    have := hy0 y hy'
    omega
  have hu : loadProjectCountByYearStep db yd =
      if db.basicProjectInfo.filterMap (fun r => r.rsyYear) = [] then yd
      else groupYearCounts (db.basicProjectInfo.filterMap (fun r => r.rsyYear)) :=
    loadProjectCountByYearStep_spec_view db yd hv0 hkeys0
  have hy0' : ∀ y ∈ db'.basicProjectInfo.filterMap (fun r => r.rsyYear), 2024 ≤ y := by
    rw [← hbase]
    exact hy0
  have hu' : loadProjectCountByYearStep db' yd =
      if db.basicProjectInfo.filterMap (fun r => r.rsyYear) = [] then yd
      else groupYearCounts (db.basicProjectInfo.filterMap (fun r => r.rsyYear)) := by
    rw [hbase]
    exact loadProjectCountByYearStep_fallback db' yd hv0' hy0'
  refine ⟨hd.trans hd'.symm, ?_, ?_, hc.trans hc'.symm, ?_, ?_, ?_, ?_⟩
  · rw [hd]; exact sortedBy_groupYearCounts _
  · rw [loadFilteredProjectCountByYearStep, loadFilteredProjectCountByYearStep,
      hd.trans hd'.symm]
  · rw [hc]; exact sortedBy_groupYearCounts _
  · rw [loadFilteredProjectCountByYearByCountyStep, loadFilteredProjectCountByYearByCountyStep,
      hc.trans hc'.symm]
  · rw [hu, hu']
  · intro hne
    rw [hu, if_neg hne]
    exact ⟨rfl, sortedBy_groupYearCounts _⟩

/-- A one-row snapshot with plan year 2025 and all three spec-modelled
year views present. -/
def dbYear2025View : Database :=
  { basicProjectInfo := [⟨"District 07", "Fayette", "X", some 2025, none⟩]
    crosswalk := []
    projectsAwardedView := none
    projectsAwardedByDistrictView := none
    projectsAwardedByCountyView := none
    projectCountYearView :=
      some (specProjectCountYearView [⟨"District 07", "Fayette", "X", some 2025, none⟩])
    projectYearsByDistrictView :=
      some (specYearView [⟨"District 07", "Fayette", "X", some 2025, none⟩]
        (fun r => r.district))
    projectYearsByCountyView :=
      some (specYearView [⟨"District 07", "Fayette", "X", some 2025, none⟩]
        (fun r => r.county)) }

/-- The same snapshot with all three year views absent. -/
def dbYear2025Fallback : Database :=
  { dbYear2025View with
      projectCountYearView := none
      projectYearsByDistrictView := none
      projectYearsByCountyView := none }

/-- Witness for the amended C5 on a concrete one-row snapshot with plan
year 2025. -/
theorem yearSeries_paths_agree_witness :
    dbYear2025View.basicProjectInfo = dbYear2025Fallback.basicProjectInfo ∧
    loadFilteredProjectCountByYearRows dbYear2025View "7" =
      loadFilteredProjectCountByYearRows dbYear2025Fallback "7" ∧
    loadProjectCountByYearStep dbYear2025View [] =
      loadProjectCountByYearStep dbYear2025Fallback [] :=
  ⟨rfl,
    (yearSeries_paths_agree dbYear2025View dbYear2025Fallback "7" "Fayette" []
      rfl rfl rfl (by decide) rfl rfl (by decide) rfl rfl (by decide)).1,
    (yearSeries_paths_agree dbYear2025View dbYear2025Fallback "7" "Fayette" []
      rfl rfl rfl (by decide) rfl rfl (by decide) rfl rfl
      (by decide)).2.2.2.2.2.2.1⟩

/-! ### Claim C9 — refresh is idempotent, the store is never written -/

theorem loadProjectsAwardedDataStep_idem (db : Database) (pc : ProjectCounts) :
    loadProjectsAwardedDataStep db (loadProjectsAwardedDataStep db pc) =
      loadProjectsAwardedDataStep db pc := by
  cases hv : db.projectsAwardedView with
  | none => simp [loadProjectsAwardedDataStep, hv]
  | some rows =>
    cases hr : rows.head? with
    | none => simp [loadProjectsAwardedDataStep, hv, hr]
    | some r => simp [loadProjectsAwardedDataStep, hv, hr]

theorem loadFilteredProjectsAwardedDataStep_idem (db : Database) (pc : ProjectCounts)
    (d : String) :
    loadFilteredProjectsAwardedDataStep db
        (loadFilteredProjectsAwardedDataStep db pc d) d =
      loadFilteredProjectsAwardedDataStep db pc d := by
  cases hv : db.projectsAwardedByDistrictView with
  | none => simp [loadFilteredProjectsAwardedDataStep, hv]
  | some rows =>
    cases hr : rows.find? (fun r => r.key == formatDistrict d) with
    | none => simp [loadFilteredProjectsAwardedDataStep, hv, hr]
    | some r => simp [loadFilteredProjectsAwardedDataStep, hv, hr]

theorem loadProjectCountByYearStep_idem (db : Database) (yd : List (Int × Nat)) :
    loadProjectCountByYearStep db (loadProjectCountByYearStep db yd) =
      loadProjectCountByYearStep db yd := by
  cases hv : db.projectCountYearView with
  | some vr =>
    by_cases h1 : (sortBy (fun p => p.1) vr).isEmpty
    · simp [loadProjectCountByYearStep, hv, h1]
    · by_cases h2 : (buildYearData (sortBy (fun p => p.1) vr)).isEmpty <;>
        simp [loadProjectCountByYearStep, hv, h1, h2]
  | none =>
    by_cases h1 : (((db.basicProjectInfo.filterMap (fun r => r.rsyYear)).filter
        (fun y => 2024 ≤ y)).foldl (fun m y => setYear m y (getYear m y + 1)) []).isEmpty <;>
      simp [loadProjectCountByYearStep, hv, h1]

theorem updateChartsAndTable_idem (db : Database) (st : FilterState) (a : AggState) :
    updateChartsAndTable db st (updateChartsAndTable db st a) =
      updateChartsAndTable db st a := by
  cases hvar : updateChartsAndTableVariant st with
  | byProjectType pt => simp [updateChartsAndTable, hvar]
  | byCounty c => simp [updateChartsAndTable, hvar]
  | byDistrict d =>
    simp [updateChartsAndTable, hvar, loadFilteredProjectsAwardedDataStep_idem]
  | unfiltered =>
    by_cases hrows : (loadBasicProjectInfoRows db).isEmpty <;>
      simp [updateChartsAndTable, hvar, loadBasicProjectInfoStep, hrows,
        loadProjectsAwardedDataStep_idem, loadProjectCountByYearStep_idem]

/-- Claim C9: a refresh only rewrites the aggregate view state — the
snapshot and the filter state are untouched, and running the refresh twice
with an unchanged filter state yields the same session (identical
awarded/current pair, year series and row set) as running it once. -/
theorem refreshSession_idempotent (s : SessionState) :
    refreshSession (refreshSession s) = refreshSession s ∧
    (refreshSession s).db = s.db ∧
    (refreshSession s).filter = s.filter := by
  refine ⟨?_, rfl, rfl⟩
  have h := updateChartsAndTable_idem s.db s.filter s.agg
  simp [refreshSession, h]

end KYHighway
